import Mathlib

/-!
Verification of the battery telemetry monitor (`battery_monitor.py`).

The script reads a bus voltage and a current from an INA219 power sensor and a
temperature and a relative humidity from an AHT25 environmental sensor, derives
battery metrics (health status, state of charge, depth of discharge, internal
impedance) and rotates four pages of text on a 16x2 character LCD.

Shallow embedding conventions:
* Python floats are modelled as rationals (`ℚ`); the IEEE special values needed
  for the NaN claim are modelled by the dedicated type `PyFloat`.
* Python string formatting (`f-strings` with `:.2f`, `:.1f`, `:.0f`, `:<7`,
  `int(...)`) is modelled by executable functions on `ℚ`/`ℤ`/`ℕ`
  (`formatFixed`, `pyLJust`, `pyInt`), with round-half-even rounding as CPython
  performs for `format`.
* The endless monitor loop is modelled as a function over a finite list of
  per-cycle sensor outcomes; exhausting the list stands for the user pressing
  Ctrl-C (the `KeyboardInterrupt` handler), and a `sensorFail` entry stands for
  an exception raised by a sensor read mid-cycle (the `except Exception`
  handler).  The process exit code of CPython after a handled exception at
  top-level is 0, which the model records in `exitCode`.
-/

/-- Decimal digits of `n`, least significant first, computed with explicit fuel
so that the kernel can evaluate it.  `natDigitsRev (n+1) n` always has enough
fuel. -/
def natDigitsRev : ℕ → ℕ → List ℕ
  | 0, _ => []
  | fuel+1, n => if n < 10 then [n] else n % 10 :: natDigitsRev fuel (n / 10)

/-- Decimal representation of a natural number, as Python `str` renders it. -/
def natRepr (n : ℕ) : String :=
  String.mk (((natDigitsRev (n+1) n).reverse).map Nat.digitChar)

/-- Decimal representation of an integer, as Python `str` renders it. -/
def intRepr (n : ℤ) : String :=
  if n < 0 then "-" ++ natRepr n.natAbs else natRepr n.natAbs

/-- Left-pad a string with `'0'` up to width `w` (used for the fractional part
of a fixed-point rendering). -/
def padZeros (w : ℕ) (s : String) : String :=
  String.mk (List.replicate (w - s.length) '0') ++ s

/-- Round to the nearest integer, ties to even — the rounding CPython's
`format(x, '.nf')` applies to the scaled value. -/
def roundHalfEven (q : ℚ) : ℤ :=
  if q - ⌊q⌋ < 1/2 then ⌊q⌋
  else if 1/2 < q - ⌊q⌋ then ⌊q⌋ + 1
  else if ⌊q⌋ % 2 = 0 then ⌊q⌋ else ⌊q⌋ + 1

/-- Render an already-scaled integer `n` with `prec` digits after the decimal
point: the pure string part of `formatFixed`, kernel-evaluable. -/
def formatScaled (n : ℤ) (prec : ℕ) : String :=
  if prec = 0 then intRepr n
  else (if n < 0 then "-" else "")
    ++ natRepr (n.natAbs / 10^prec) ++ "." ++ padZeros prec (natRepr (n.natAbs % 10^prec))

/-- Python `f-string` fixed-point formatting `f'{q:.{prec}f}'` on a rational. -/
def formatFixed (q : ℚ) (prec : ℕ) : String :=
  formatScaled (roundHalfEven (q * 10^prec)) prec

/-- Python `f'{s:<w}'`: left-justify `s` in a field of width `w`. -/
def pyLJust (s : String) (w : ℕ) : String :=
  s ++ String.mk (List.replicate (w - s.length) ' ')

/-- Python `int(q)`: truncation toward zero. -/
def pyInt (q : ℚ) : ℤ :=
  if 0 ≤ q then ⌊q⌋ else ⌈q⌉

/-- Line 9 of the source: display page rotation interval in seconds. -/
def PAGE_DELAY : ℕ := 5

/-- Line 10 of the source: INA219 shunt resistance in ohms (bound but never
used by the computations in the script). -/
def SHUNT_RESISTANCE : ℚ := 0.1

/-- Line 11 of the source: healthy battery threshold in volts. -/
def VOLTAGE_HEALTHY : ℚ := 11.5

/-- Line 12 of the source: moderate battery threshold in volts. -/
def VOLTAGE_MODERATE : ℚ := 10.5

/-- Line 13 of the source: fully charged battery voltage. -/
def MAX_VOLTAGE : ℚ := 12.6

/-- Line 14 of the source: fully discharged battery voltage. -/
def MIN_VOLTAGE : ℚ := 9.0

/-- Lines 22–29 of the source, `get_battery_status(voltage)`: the health
classification, comparisons evaluated high-to-low. -/
def get_battery_status (voltage : ℚ) : String :=
  if voltage ≥ VOLTAGE_HEALTHY then "Healthy"
  else if voltage ≥ VOLTAGE_MODERATE then "Moderate"
  else "Critical"

/-- Line 40 of the source: `impedance = (bus_v / current_a) if current_a >
0.0001 else 0.0`, with `current_a` in amps. -/
def impedance (bus_v current_a : ℚ) : ℚ :=
  if current_a > 0.0001 then bus_v / current_a else 0

/-- Line 41 of the source: `soc = max(0, min(100, (bus_v -
MIN_VOLTAGE)/(MAX_VOLTAGE-MIN_VOLTAGE)*100))`. -/
def soc (bus_v : ℚ) : ℚ :=
  max 0 (min 100 ((bus_v - MIN_VOLTAGE) / (MAX_VOLTAGE - MIN_VOLTAGE) * 100))

/-- Line 42 of the source: `dod = 100 - soc`. -/
def dod (bus_v : ℚ) : ℚ := 100 - soc bus_v

/-- The expression of line 41 with the calibration bounds as parameters, used
to examine the hypothetical configurations of claim C4.  CPython raises
`ZeroDivisionError` when the denominator is exactly zero and otherwise computes
the clamped value, also when `maxV < minV`. -/
def socWith (minV maxV bus_v : ℚ) : Except String ℚ :=
  if maxV - minV = 0 then Except.error "ZeroDivisionError"
  else Except.ok (max 0 (min 100 ((bus_v - minV) / (maxV - minV) * 100)))

/-- Lines 8–20 of the source: startup binds the configuration constants and
constructs the I2C bus, the two sensors and the LCD.  The script contains no
validation of the calibration bounds and defines no `ConfigurationError`, so
startup succeeds for every choice of `minV` and `maxV` and the loop is always
entered. -/
def startupCheck (_minV _maxV : ℚ) : Except String Unit := Except.ok ()

/-- IEEE-754 double as the health classification receives it: a finite value,
an infinity, or NaN.  Only ordered comparison against a finite threshold is
needed; every comparison involving NaN is false. -/
inductive PyFloat where
  | nan
  | posInf
  | negInf
  | fin (q : ℚ)

/-- IEEE `>=` against a finite threshold: false for NaN, true for `+inf`,
false for `-inf`, the rational comparison for finite values. -/
def PyFloat.geQ : PyFloat → ℚ → Bool
  | PyFloat.nan, _ => false
  | PyFloat.posInf, _ => true
  | PyFloat.negInf, _ => false
  | PyFloat.fin q, t => decide (t ≤ q)

/-- Lines 22–29 of the source read with IEEE-754 comparison semantics: the same
two `>=` tests, on a value that may be NaN or infinite. -/
def get_battery_status_float (voltage : PyFloat) : String :=
  if voltage.geQ VOLTAGE_HEALTHY then "Healthy"
  else if voltage.geQ VOLTAGE_MODERATE then "Moderate"
  else "Critical"

/-- The sensor values one loop iteration consumes, in the order the source
reads them: `ina219.bus_voltage` (line 38), `ina219.current` (line 39),
`aht25.temperature` (line 43), `aht25.relative_humidity` (line 44), and — on a
page-0 iteration — the second read of the `ina219.current` property inside the
f-string of line 52.  `current1` and `current2` are distinct reads of the same
sensor register and need not agree. -/
structure SensorCycle where
  bus_v : ℚ
  current1 : ℚ
  temp : ℚ
  hum : ℚ
  current2 : ℚ

/-- Lines 49–64 of the source: the two lines written to the LCD for a page
index, given the displayed quantities.  Any page outside 0–3 writes nothing
after the clear (unreachable, since the loop keeps the page in range). -/
def formatPage (page : ℕ) (status_s : String) (bus_v current_mA temp hum socV dodV z : ℚ) :
    String × String :=
  if page = 0 then
    ("Battery:" ++ pyLJust status_s 7,
     "V:" ++ formatFixed bus_v 2 ++ " I:" ++ formatFixed current_mA 0 ++ "mA")
  else if page = 1 then
    ("Battery:" ++ pyLJust status_s 7,
     "T:" ++ formatFixed temp 1 ++ " H:" ++ formatFixed hum 0 ++ "%")
  else if page = 2 then
    ("SVM:OFF", "SOC:" ++ intRepr (pyInt socV) ++ "% SOH:OFF")
  else if page = 3 then
    ("SVM:OFF", "DOD:" ++ intRepr (pyInt dodV) ++ "% Z:" ++ formatFixed z 1 ++ "R")
  else ("", "")

/-- One loop iteration's display content (lines 38–64): the metrics are derived
from the captured sample, the impedance from the first current read converted
to amps (line 39), while the current shown on page 0 is the second read of the
`ina219.current` property (line 52), still in milliamps. -/
def cycleLines (page : ℕ) (s : SensorCycle) : String × String :=
  formatPage page (get_battery_status s.bus_v) s.bus_v s.current2 s.temp s.hum
    (soc s.bus_v) (dod s.bus_v) (impedance s.bus_v (s.current1 / 1000))

/-- What the environment delivers to one loop iteration: either the sensor
reads succeed and yield a sample, or one of them raises (modelled by the
exception's message). -/
inductive CycleInput where
  | ok (s : SensorCycle)
  | sensorFail (msg : String)

/-- Observable outcome of a run of the script: every string written to the LCD
in order, every line printed to stdout after the startup banner, the process
exit code, the number of completed loop iterations, and the page index shown by
each of them. -/
structure RunResult where
  displayed : List String
  printed : List String
  exitCode : ℕ
  cyclesCompleted : ℕ
  pagesShown : List ℕ

/-- Lines 35–76 of the source, from a given page counter value: each successful
iteration writes its two lines and advances the page by `(page + 1) % 4`
(line 66); a failing sensor read reaches the `except Exception` handler, which
writes `"Error Occurred"`, prints the detail and falls off the end of the
script — CPython then exits with status 0; exhausting the input list stands for
`KeyboardInterrupt`, whose handler writes `"System Stopped"` and also exits
with status 0. -/
def runFrom (page : ℕ) : List CycleInput → RunResult
  | [] =>
    { displayed := ["System Stopped"],
      printed := ["Battery monitoring stopped by user"],
      exitCode := 0, cyclesCompleted := 0, pagesShown := [] }
  | CycleInput.sensorFail msg :: _ =>
    { displayed := ["Error Occurred"],
      printed := ["Error: " ++ msg],
      exitCode := 0, cyclesCompleted := 0, pagesShown := [] }
  | CycleInput.ok s :: rest =>
    let l := cycleLines page s
    let r := runFrom ((page + 1) % 4) rest
    { displayed := l.1 :: l.2 :: r.displayed,
      printed := r.printed,
      exitCode := r.exitCode,
      cyclesCompleted := r.cyclesCompleted + 1,
      pagesShown := page :: r.pagesShown }

/-- The whole script run: the startup banner of line 33, then the loop from
page 0 (line 32). -/
def runMonitor (inputs : List CycleInput) : RunResult :=
  let r := runFrom 0 inputs
  { r with printed := "Battery monitoring system started..." :: r.printed }

/-- The display writes the successful iterations before a failure produce,
starting from a given page counter value. -/
def cycleWrites : ℕ → List SensorCycle → List String
  | _, [] => []
  | page, s :: rest =>
    (cycleLines page s).1 :: (cycleLines page s).2 :: cycleWrites ((page + 1) % 4) rest

/-! ## Helper lemmas about the formatting primitives -/

lemma natDigitsRev_length : ∀ (fuel n k : ℕ), n < 10^(k+1) → (natDigitsRev fuel n).length ≤ k+1 := by
  intro fuel
  induction fuel with
  | zero => intro n k _; simp [natDigitsRev]
  | succ fuel ih =>
    intro n k h
    simp only [natDigitsRev]
    split_ifs with h10
    · simp
    · have hk : k ≠ 0 := by
        intro hk0
        subst hk0
        norm_num at h
        omega
      obtain ⟨k', rfl⟩ : ∃ k', k = k'+1 := ⟨k-1, by omega⟩
      have hdiv : n / 10 < 10^(k'+1) := by
        have hmul : n < 10^(k'+1) * 10 := by
          rw [← pow_succ]
          exact h
        omega
      have := ih (n / 10) k' hdiv
      simp only [List.length_cons]
      omega

lemma natRepr_length {n k : ℕ} (h : n < 10^(k+1)) : (natRepr n).length ≤ k+1 := by
  show (((natDigitsRev (n+1) n).reverse).map Nat.digitChar).length ≤ k+1
  rw [List.length_map, List.length_reverse]
  exact natDigitsRev_length (n+1) n k h

lemma intRepr_length {n : ℤ} {k : ℕ} (h0 : 0 ≤ n) (h : n < 10^(k+1)) :
    (intRepr n).length ≤ k+1 := by
  unfold intRepr
  rw [if_neg (not_lt.mpr h0)]
  apply natRepr_length
  have hc : ((10^(k+1) : ℕ) : ℤ) = 10^(k+1) := by push_cast; ring
  omega

lemma padZeros_length {w : ℕ} {s : String} (h : s.length ≤ w) : (padZeros w s).length = w := by
  unfold padZeros
  rw [String.length_append]
  show (List.replicate (w - s.length) '0').length + s.length = w
  rw [List.length_replicate]
  omega

lemma roundHalfEven_nonneg {q : ℚ} (h : 0 ≤ q) : 0 ≤ roundHalfEven q := by
  unfold roundHalfEven
  have hf : (0:ℤ) ≤ ⌊q⌋ := Int.floor_nonneg.mpr h
  split_ifs <;> omega

lemma roundHalfEven_le (q : ℚ) : (roundHalfEven q : ℚ) ≤ q + 1/2 := by
  unfold roundHalfEven
  have h1 : (⌊q⌋ : ℚ) ≤ q := Int.floor_le q
  split_ifs with ha hb hc
  · linarith
  · push_cast; linarith
  · linarith
  · push_cast
    have h2 : q - (⌊q⌋:ℚ) = 1/2 := le_antisymm (not_lt.mp hb) (not_lt.mp ha)
    linarith

lemma formatScaled_length_fp {n : ℤ} {p k : ℕ} (hp : 0 < p) (h0 : 0 ≤ n)
    (h : n < 10^(k+1+p)) : (formatScaled n p).length ≤ k+1+1+p := by
  unfold formatScaled
  rw [if_neg (by omega : ¬ p = 0), if_neg (not_lt.mpr h0)]
  rw [String.length_append, String.length_append, String.length_append]
  have hm : n.natAbs < 10^(k+1+p) := by
    have hc : ((10^(k+1+p) : ℕ) : ℤ) = 10^(k+1+p) := by push_cast; ring
    omega
  have hdiv : n.natAbs / 10^p < 10^(k+1) := by
    have hmul : n.natAbs < 10^(k+1) * 10^p := by
      rw [← pow_add]
      exact hm
    have hppos : 0 < (10:ℕ)^p := by positivity
    exact Nat.div_lt_of_lt_mul (by linarith [hmul])
  have h1 := natRepr_length hdiv
  obtain ⟨p', rfl⟩ : ∃ p', p = p'+1 := ⟨p-1, by omega⟩
  have hmod : n.natAbs % 10^(p'+1) < 10^(p'+1) := Nat.mod_lt _ (by positivity)
  have h2 := natRepr_length (k := p') hmod
  have h3 := padZeros_length (w := p'+1) h2
  have e0 : ("" : String).length = 0 := rfl
  have e1 : (".").length = 1 := rfl
  omega

lemma formatFixed_length_pos {q : ℚ} {p k : ℕ} (hp : 0 < p) (h0 : 0 ≤ q)
    (h : q * 10^p + 1/2 < (10:ℚ)^(k+1+p)) : (formatFixed q p).length ≤ k+1+1+p := by
  unfold formatFixed
  apply formatScaled_length_fp hp (roundHalfEven_nonneg (by positivity))
  have h1 : (roundHalfEven (q * 10^p) : ℚ) ≤ q * 10^p + 1/2 := roundHalfEven_le _
  have h2 : (roundHalfEven (q * 10^p) : ℚ) < (10:ℚ)^(k+1+p) := lt_of_le_of_lt h1 h
  exact_mod_cast h2

lemma formatFixed_length_zero {q : ℚ} {k : ℕ} (h0 : 0 ≤ q)
    (h : q + 1/2 < (10:ℚ)^(k+1)) : (formatFixed q 0).length ≤ k+1 := by
  unfold formatFixed
  rw [pow_zero, mul_one]
  unfold formatScaled
  rw [if_pos rfl]
  apply intRepr_length (roundHalfEven_nonneg h0)
  have h1 : (roundHalfEven q : ℚ) < (10:ℚ)^(k+1) := lt_of_le_of_lt (roundHalfEven_le q) h
  exact_mod_cast h1

/-! ## Helper lemmas about the metrics and the display lines -/

lemma status_cases (v : ℚ) :
    get_battery_status v = "Healthy" ∨ get_battery_status v = "Moderate" ∨
    get_battery_status v = "Critical" := by
  unfold get_battery_status
  split_ifs <;> simp

lemma soc_nonneg (v : ℚ) : 0 ≤ soc v := le_max_left 0 _

lemma soc_le_100 (v : ℚ) : soc v ≤ 100 :=
  max_le (by norm_num) (min_le_left 100 _)

lemma dod_nonneg (v : ℚ) : 0 ≤ dod v := by
  have := soc_le_100 v
  unfold dod
  linarith

lemma dod_le_100 (v : ℚ) : dod v ≤ 100 := by
  have := soc_nonneg v
  unfold dod
  linarith

lemma pyInt_of_nonneg {q : ℚ} (h : 0 ≤ q) : pyInt q = ⌊q⌋ := if_pos h

lemma pyInt_range {q : ℚ} (h0 : 0 ≤ q) (h1 : q ≤ 100) :
    0 ≤ pyInt q ∧ pyInt q ≤ 100 := by
  rw [pyInt_of_nonneg h0]
  constructor
  · exact Int.floor_nonneg.mpr h0
  · have h2 : ⌊q⌋ ≤ ⌊(100:ℚ)⌋ := Int.floor_le_floor h1
    have h3 : ⌊(100:ℚ)⌋ = 100 := by norm_num
    omega

lemma intRepr_pyInt_length {q : ℚ} (h0 : 0 ≤ q) (h1 : q ≤ 100) :
    (intRepr (pyInt q)).length ≤ 3 := by
  obtain ⟨ha, hb⟩ := pyInt_range h0 h1
  have h : pyInt q < 10^(2+1) := by
    have : (10:ℤ)^(2+1) = 1000 := by norm_num
    omega
  exact intRepr_length ha h

lemma battery_line_length (v : ℚ) :
    ("Battery:" ++ pyLJust (get_battery_status v) 7).length ≤ 16 := by
  rcases status_cases v with h | h | h <;> rw [h] <;> decide

lemma ne_err_head {s : String} {c : Char} {l : List Char}
    (hs : s.data = c :: l) (hc : c ≠ 'E') : s ≠ "Error Occurred" := by
  intro he
  rw [he] at hs
  have h2 : ("Error Occurred").data = 'E' :: "rror Occurred".data := rfl
  rw [h2] at hs
  exact hc (((List.cons.injEq _ _ _ _).mp hs).1).symm

lemma cycleLines_ne (p : ℕ) (hp : p < 4) (s : SensorCycle) :
    (cycleLines p s).1 ≠ "Error Occurred" ∧ (cycleLines p s).2 ≠ "Error Occurred" := by
  interval_cases p
  · exact ⟨ne_err_head rfl (by decide), ne_err_head rfl (by decide)⟩
  · exact ⟨ne_err_head rfl (by decide), ne_err_head rfl (by decide)⟩
  · exact ⟨ne_err_head rfl (by decide), ne_err_head rfl (by decide)⟩
  · exact ⟨ne_err_head rfl (by decide), ne_err_head rfl (by decide)⟩

/-! ## Helper lemmas about the monitor loop -/

lemma cycleWrites_count_zero :
    ∀ (good : List SensorCycle) (p : ℕ), p < 4 →
    (cycleWrites p good).count "Error Occurred" = 0 := by
  intro good
  induction good with
  | nil => intro p _; simp [cycleWrites]
  | cons s ss ih =>
    intro p hp
    have hne := cycleLines_ne p hp s
    have h4 : (p+1) % 4 < 4 := Nat.mod_lt _ (by norm_num)
    simp only [cycleWrites, List.count_cons, ih _ h4]
    simp
    exact ⟨hne.2, hne.1⟩

lemma runFrom_fail_displayed (msg : String) (rest : List CycleInput) :
    ∀ (good : List SensorCycle) (p : ℕ),
    (runFrom p (good.map CycleInput.ok ++ CycleInput.sensorFail msg :: rest)).displayed
      = cycleWrites p good ++ ["Error Occurred"] := by
  intro good
  induction good with
  | nil => intro p; simp [runFrom, cycleWrites]
  | cons s ss ih =>
    intro p
    simp only [List.map_cons, List.cons_append, List.append_eq, runFrom, cycleWrites,
      ih ((p+1) % 4)]

lemma runFrom_fail_printed (msg : String) (rest : List CycleInput) :
    ∀ (good : List SensorCycle) (p : ℕ),
    (runFrom p (good.map CycleInput.ok ++ CycleInput.sensorFail msg :: rest)).printed
      = ["Error: " ++ msg] := by
  intro good
  induction good with
  | nil => intro p; simp [runFrom]
  | cons s ss ih =>
    intro p
    simp only [List.map_cons, List.cons_append, List.append_eq, runFrom, ih ((p+1) % 4)]

lemma runFrom_fail_exitCode (msg : String) (rest : List CycleInput) :
    ∀ (good : List SensorCycle) (p : ℕ),
    (runFrom p (good.map CycleInput.ok ++ CycleInput.sensorFail msg :: rest)).exitCode = 0 := by
  intro good
  induction good with
  | nil => intro p; simp [runFrom]
  | cons s ss ih =>
    intro p
    simp only [List.map_cons, List.cons_append, List.append_eq, runFrom, ih ((p+1) % 4)]

lemma runFrom_fail_cycles (msg : String) (rest : List CycleInput) :
    ∀ (good : List SensorCycle) (p : ℕ),
    (runFrom p (good.map CycleInput.ok ++ CycleInput.sensorFail msg :: rest)).cyclesCompleted
      = good.length := by
  intro good
  induction good with
  | nil => intro p; simp [runFrom]
  | cons s ss ih =>
    intro p
    simp only [List.map_cons, List.cons_append, List.append_eq, runFrom, ih ((p+1) % 4),
      List.length_cons]

lemma runFrom_ok_pagesShown :
    ∀ (good : List SensorCycle) (p : ℕ), p < 4 →
    (runFrom p (good.map CycleInput.ok)).pagesShown
      = (List.range good.length).map (fun k => (p + k) % 4) := by
  intro good
  induction good with
  | nil => intro p _; simp [runFrom]
  | cons s ss ih =>
    intro p hp
    have h4 : (p+1) % 4 < 4 := Nat.mod_lt _ (by norm_num)
    simp only [List.map_cons, runFrom, ih ((p+1) % 4) h4, List.length_cons,
      List.range_succ_eq_map, List.map_cons, List.map_map]
    have hhead : (p + 0) % 4 = p := by omega
    rw [hhead]
    congr 1
    apply List.map_congr_left
    intro k _
    simp only [Function.comp_apply]
    omega

/-! ## Claim theorems -/

/-- C1: for every busVoltage, the classification returns Healthy when the
voltage is at least the healthy threshold (11.5), else Moderate when at least
the moderate threshold (10.5), else Critical; values exactly equal to a
threshold fall into the higher band, and the comparisons are evaluated
high-to-low so a healthy voltage is never reported Moderate. -/
theorem c1_classify_health_bands :
    (∀ v : ℚ,
      (VOLTAGE_HEALTHY ≤ v → get_battery_status v = "Healthy") ∧
      (VOLTAGE_MODERATE ≤ v → v < VOLTAGE_HEALTHY → get_battery_status v = "Moderate") ∧
      (v < VOLTAGE_MODERATE → get_battery_status v = "Critical")) ∧
    get_battery_status VOLTAGE_HEALTHY = "Healthy" ∧
    get_battery_status VOLTAGE_MODERATE = "Moderate" ∧
    VOLTAGE_HEALTHY = 11.5 ∧ VOLTAGE_MODERATE = 10.5 := by
  have hnum : VOLTAGE_MODERATE < VOLTAGE_HEALTHY := by
    norm_num [VOLTAGE_HEALTHY, VOLTAGE_MODERATE]
  constructor
  · intro v
    unfold get_battery_status
    refine ⟨fun h => ?_, fun h1 h2 => ?_, fun h => ?_⟩
    · rw [if_pos h]
    · rw [if_neg (not_le.mpr h2), if_pos h1]
    · rw [if_neg (not_le.mpr (lt_trans h hnum)), if_neg (not_le.mpr h)]
  · refine ⟨?_, ?_, rfl, rfl⟩
    · unfold get_battery_status
      rw [if_pos (le_refl VOLTAGE_HEALTHY)]
    · unfold get_battery_status
      rw [if_neg (not_le.mpr hnum), if_pos (le_refl VOLTAGE_MODERATE)]

/-- C1 witness: the three bands at the concrete voltages 12 V, 11 V and
9.5 V. -/
theorem c1_classify_health_bands_wit :
    get_battery_status 12 = "Healthy" ∧ get_battery_status 11 = "Moderate" ∧
    get_battery_status 9.5 = "Critical" :=
  ⟨(c1_classify_health_bands.1 12).1 (by norm_num [VOLTAGE_HEALTHY]),
   (c1_classify_health_bands.1 11).2.1 (by norm_num [VOLTAGE_MODERATE])
     (by norm_num [VOLTAGE_HEALTHY]),
   (c1_classify_health_bands.1 9.5).2.2 (by norm_num [VOLTAGE_MODERATE])⟩

/-- C2: for every busVoltage — also outside the calibration interval — the SOC
is the linear interpolation clamped to the interval 0..100, the DOD is
100 − SOC, and SOC + DOD = 100 holds identically; both values stay in
0..100. -/
theorem c2_soc_dod_clamp_sum :
    ∀ bus_v : ℚ,
      soc bus_v = max 0 (min 100 ((bus_v - MIN_VOLTAGE) / (MAX_VOLTAGE - MIN_VOLTAGE) * 100)) ∧
      dod bus_v = 100 - soc bus_v ∧
      soc bus_v + dod bus_v = 100 ∧
      0 ≤ soc bus_v ∧ soc bus_v ≤ 100 ∧ 0 ≤ dod bus_v ∧ dod bus_v ≤ 100 := by
  intro v
  refine ⟨rfl, rfl, ?_, soc_nonneg v, soc_le_100 v, dod_nonneg v, dod_le_100 v⟩
  unfold dod
  ring

/-- C3: the impedance computation returns 0 whenever the current in amps is at
or below the 0.0001 A noise floor and the quotient busVoltage / current
otherwise; the division is only ever taken with a denominator strictly above
the noise floor, and the result is never negative for a non-negative bus
voltage. -/
theorem c3_impedance_guard :
    ∀ bus_v current_a : ℚ,
      (current_a ≤ 0.0001 → impedance bus_v current_a = 0) ∧
      (0.0001 < current_a → impedance bus_v current_a = bus_v / current_a) ∧
      (0 ≤ bus_v → 0 ≤ impedance bus_v current_a) := by
  intro v i
  unfold impedance
  split_ifs with h
  · exact ⟨fun hle => absurd h (not_lt.mpr hle), fun _ => rfl,
      fun hv => div_nonneg hv (le_of_lt (lt_trans (by norm_num) h))⟩
  · exact ⟨fun _ => rfl, fun hlt => absurd hlt h, fun _ => le_refl 0⟩

/-- C3 witness: at 12 V the guard divides for a 0.5 A current and returns 0
for a 0.00005 A current, and the quotient is non-negative. -/
theorem c3_impedance_guard_wit :
    impedance 12 (1/2) = 12 / (1/2) ∧ impedance 12 0.00005 = 0 ∧
    0 ≤ impedance 12 (1/2) :=
  ⟨(c3_impedance_guard 12 (1/2)).2.1 (by norm_num),
   (c3_impedance_guard 12 0.00005).1 (by norm_num),
   (c3_impedance_guard 12 (1/2)).2.2 (by norm_num)⟩

/-- C9: the health classification is total on IEEE floats: every input —
finite, infinite or NaN — yields exactly one of the three status strings; NaN
falls through both `>=` comparisons (each false) to Critical, `+inf` is
Healthy, `-inf` is Critical, and on finite values the float version agrees
with the rational model. -/
theorem c9_classification_total_nan_critical :
    (∀ x : PyFloat,
      get_battery_status_float x = "Healthy" ∨ get_battery_status_float x = "Moderate" ∨
      get_battery_status_float x = "Critical") ∧
    get_battery_status_float PyFloat.nan = "Critical" ∧
    get_battery_status_float PyFloat.posInf = "Healthy" ∧
    get_battery_status_float PyFloat.negInf = "Critical" ∧
    (∀ q : ℚ, get_battery_status_float (PyFloat.fin q) = get_battery_status q) := by
  refine ⟨?_, rfl, rfl, rfl, ?_⟩
  · intro x
    unfold get_battery_status_float
    split_ifs <;> simp
  · intro q
    simp [get_battery_status_float, get_battery_status, PyFloat.geQ, ge_iff_le]

/-- C6: starting at page 0, the pages shown by consecutive successful cycles
are exactly 0,1,2,3,0,1,2,3,…: the page shown by cycle k is k mod 4, the
counter advances once per successful cycle via `(page + 1) % 4`, every page
index stays below 4, and after four cycles the sequence is back at 0. -/
theorem c6_page_rotation :
    ∀ samples : List SensorCycle,
      (runMonitor (samples.map CycleInput.ok)).pagesShown
        = (List.range samples.length).map (fun k => k % 4) ∧
      ∀ q ∈ (runMonitor (samples.map CycleInput.ok)).pagesShown, q < 4 := by
  intro samples
  have h := runFrom_ok_pagesShown samples 0 (by norm_num)
  have hm : (runMonitor (samples.map CycleInput.ok)).pagesShown
      = (runFrom 0 (samples.map CycleInput.ok)).pagesShown := rfl
  constructor
  · rw [hm, h]
    apply List.map_congr_left
    intro k _
    omega
  · rw [hm, h]
    intro q hq
    simp only [List.mem_map] at hq
    obtain ⟨k, _, rfl⟩ := hq
    omega

/-- C5 (amended): a sensor read failure after any number of good cycles causes
exactly one final "Error Occurred" display write (the last write of the run),
the failure detail on stdout, no further cycles and no retry — but the process
then falls off the end of the `except` handler and exits with status 0, not
with a failure status. -/
theorem c5_error_cycle_behavior (good : List SensorCycle) (msg : String)
    (rest : List CycleInput) :
    (runMonitor (good.map CycleInput.ok ++ CycleInput.sensorFail msg :: rest)).displayed
      = cycleWrites 0 good ++ ["Error Occurred"] ∧
    ((runMonitor (good.map CycleInput.ok ++ CycleInput.sensorFail msg :: rest)).displayed).count
      "Error Occurred" = 1 ∧
    ((runMonitor (good.map CycleInput.ok ++ CycleInput.sensorFail msg :: rest)).displayed).getLast?
      = some "Error Occurred" ∧
    (runMonitor (good.map CycleInput.ok ++ CycleInput.sensorFail msg :: rest)).printed
      = ["Battery monitoring system started...", "Error: " ++ msg] ∧
    (runMonitor (good.map CycleInput.ok ++ CycleInput.sensorFail msg :: rest)).exitCode = 0 ∧
    (runMonitor (good.map CycleInput.ok ++ CycleInput.sensorFail msg :: rest)).cyclesCompleted
      = good.length := by
  simp only [runMonitor]
  refine ⟨?_, ?_, ?_, ?_, ?_, ?_⟩
  · exact runFrom_fail_displayed msg rest good 0
  · rw [runFrom_fail_displayed msg rest good 0, List.count_append,
      cycleWrites_count_zero good 0 (by norm_num)]
    decide
  · rw [runFrom_fail_displayed msg rest good 0]
    exact List.getLast?_concat _
  · rw [runFrom_fail_printed msg rest good 0]
  · exact runFrom_fail_exitCode msg rest good 0
  · exact runFrom_fail_cycles msg rest good 0

/-- C5 counterexample: a sensor read failure on the very first cycle produces
the single "Error Occurred" write, but the process exit status is 0 — the
claimed non-zero (failure) exit status is false. -/
theorem c5_exit_status_counterexample :
    (runMonitor [CycleInput.sensorFail "I2C read failed"]).displayed = ["Error Occurred"] ∧
    (runMonitor [CycleInput.sensorFail "I2C read failed"]).exitCode = 0 ∧
    ¬ (runMonitor [CycleInput.sensorFail "I2C read failed"]).exitCode ≠ 0 :=
  ⟨rfl, rfl, fun h => h rfl⟩

/-- C4 (code bug): the script performs no validation of the calibration
constants — `startupCheck` succeeds even with maxVoltage < minVoltage, no
`ConfigurationError` exists, and with the inverted bounds (minV = 12.6 V,
maxV = 9 V) a cycle at 12 V happily produces the in-range SOC 50/3 ≈ 16.7 %
instead of the claimed refusal to run; with maxV = minV the SOC line raises
`ZeroDivisionError` mid-cycle (caught by the generic handler), still not a
startup `ConfigurationError`.  The last conjunct ties the parametric form to
the constants actually used. -/
theorem c4_no_startup_validation :
    startupCheck 12.6 9 = Except.ok () ∧
    socWith 12.6 9 12 = Except.ok (50/3) ∧
    ((0:ℚ) ≤ 50/3 ∧ (50/3:ℚ) ≤ 100) ∧
    socWith 9 9 12 = Except.error "ZeroDivisionError" ∧
    (∀ v : ℚ, socWith MIN_VOLTAGE MAX_VOLTAGE v = Except.ok (soc v)) := by
  refine ⟨rfl, ?_, by norm_num, ?_, ?_⟩
  · have hval : max (0:ℚ) (min 100 ((12 - 12.6) / (9 - 12.6) * 100)) = 50/3 := by
      rw [min_eq_right (show ((12:ℚ) - 12.6) / (9 - 12.6) * 100 ≤ 100 by norm_num),
        max_eq_right (show (0:ℚ) ≤ ((12:ℚ) - 12.6) / (9 - 12.6) * 100 by norm_num)]
      norm_num
    rw [socWith, if_neg (show ¬ ((9:ℚ) - 12.6 = 0) by norm_num), hval]
  · rw [socWith, if_pos (show (9:ℚ) - 9 = 0 by norm_num)]
  · intro v
    rw [socWith, if_neg (show ¬ (MAX_VOLTAGE - MIN_VOLTAGE = 0) by
      norm_num [MAX_VOLTAGE, MIN_VOLTAGE])]
    exact rfl

/-- C8 (code bug): on a page-0 cycle the current shown on the display comes
from a second read of the `ina219.current` property (line 52), not from the
reading captured at line 39: with a first read of 500 mA and a second read of
600 mA the impedance is computed from 0.5 A (giving 24 Ω at 12 V) while the
display shows `I:600mA` — the two reads are distinct values, refuting the
single-immutable-sample claim. -/
theorem c8_display_second_current_read :
    (cycleLines 0 ⟨12, 500, 25, 40, 600⟩).2 = "V:12.00 I:600mA" ∧
    impedance (12:ℚ) (500 / 1000) = 24 ∧
    ((⟨12, 500, 25, 40, 600⟩ : SensorCycle).current1
      ≠ (⟨12, 500, 25, 40, 600⟩ : SensorCycle).current2) := by
  have hline : (cycleLines 0 ⟨12, 500, 25, 40, 600⟩).2
      = "V:" ++ formatFixed 12 2 ++ " I:" ++ formatFixed 600 0 ++ "mA" := rfl
  have hf1 : formatFixed (12:ℚ) 2 = formatScaled 1200 2 := by
    rw [formatFixed, show roundHalfEven ((12:ℚ) * 10^2) = 1200 from by norm_num [roundHalfEven]]
  have hf2 : formatFixed (600:ℚ) 0 = formatScaled 600 0 := by
    rw [formatFixed, show roundHalfEven ((600:ℚ) * 10^0) = 600 from by norm_num [roundHalfEven]]
  refine ⟨?_, by norm_num [impedance], by norm_num⟩
  rw [hline, hf1, hf2]
  decide

/-- C10: the SOC and DOD shown on pages 2 and 3 are the truncations toward
zero of the clamped values (equal to the floor, both being non-negative), each
an integer in 0..100; truncating independently loses the sum invariant: at
12 V the floats are soc = 250/3 ≈ 83.33 and dod = 50/3 ≈ 16.67, summing to
exactly 100, while the displayed integers 83 and 16 sum to 99, as the rendered
page lines show. -/
theorem c10_displayed_truncation :
    (∀ v : ℚ, pyInt (soc v) = ⌊soc v⌋ ∧ pyInt (dod v) = ⌊dod v⌋ ∧
      0 ≤ pyInt (soc v) ∧ pyInt (soc v) ≤ 100 ∧
      0 ≤ pyInt (dod v) ∧ pyInt (dod v) ≤ 100) ∧
    soc 12 + dod 12 = 100 ∧
    pyInt (soc 12) + pyInt (dod 12) = 99 ∧
    (cycleLines 2 ⟨12, 500, 25, 40, 500⟩).2 = "SOC:83% SOH:OFF" ∧
    (cycleLines 3 ⟨12, 500, 25, 40, 500⟩).2 = "DOD:16% Z:24.0R" := by
  have hsoc12 : soc 12 = 250/3 := by
    show max (0:ℚ) (min 100 ((12 - 9.0) / (12.6 - 9.0) * 100)) = 250/3
    rw [min_eq_right (show ((12:ℚ) - 9.0) / (12.6 - 9.0) * 100 ≤ 100 by norm_num),
      max_eq_right (show (0:ℚ) ≤ ((12:ℚ) - 9.0) / (12.6 - 9.0) * 100 by norm_num)]
    norm_num
  have hdod12 : dod 12 = 50/3 := by
    rw [dod, hsoc12]
    norm_num
  have hp1 : pyInt (250/3 : ℚ) = 83 := by norm_num [pyInt]
  have hp2 : pyInt (50/3 : ℚ) = 16 := by norm_num [pyInt]
  have himp : impedance (12:ℚ) (500 / 1000) = 24 := by norm_num [impedance]
  have hff : formatFixed (24:ℚ) 1 = formatScaled 240 1 := by
    rw [formatFixed, show roundHalfEven ((24:ℚ) * 10^1) = 240 from by norm_num [roundHalfEven]]
  have hline2 : (cycleLines 2 ⟨12, 500, 25, 40, 500⟩).2
      = "SOC:" ++ intRepr (pyInt (soc 12)) ++ "% SOH:OFF" := rfl
  have hline3 : (cycleLines 3 ⟨12, 500, 25, 40, 500⟩).2
      = "DOD:" ++ intRepr (pyInt (dod 12)) ++ "% Z:"
        ++ formatFixed (impedance 12 (500 / 1000)) 1 ++ "R" := rfl
  refine ⟨?_, ?_, ?_, ?_, ?_⟩
  · intro v
    obtain ⟨hs0, hs1⟩ := pyInt_range (soc_nonneg v) (soc_le_100 v)
    obtain ⟨hd0, hd1⟩ := pyInt_range (dod_nonneg v) (dod_le_100 v)
    exact ⟨pyInt_of_nonneg (soc_nonneg v), pyInt_of_nonneg (dod_nonneg v), hs0, hs1, hd0, hd1⟩
  · rw [hsoc12, hdod12]
    norm_num
  · rw [hsoc12, hdod12, hp1, hp2]
    norm_num
  · rw [hline2, hsoc12, hp1]
    decide
  · rw [hline3, hdod12, hp2, himp, hff]
    decide

/-- C7 (amended): for every page index 0–3 the formatter produces exactly the
two lines of the fixed page mapping, and each line fits in the 16-character
display width provided the rendered quantities are in their nominal ranges
(voltage, temperature and impedance below 99, current below 9999 mA, humidity
at most 100, SOC and DOD in 0..100); outside those ranges — e.g. an impedance
of 100 Ω or more together with a DOD of 100 on page 3 — a line can exceed 16
characters, which is what the counterexample exhibits. -/
theorem c7_page_width (page : ℕ) (v iMA tC hu socV dodV z : ℚ)
    (hpage : page < 4)
    (hv0 : 0 ≤ v) (hv1 : v < 99)
    (hi0 : 0 ≤ iMA) (hi1 : iMA < 9999)
    (ht0 : 0 ≤ tC) (ht1 : tC < 99)
    (hh0 : 0 ≤ hu) (hh1 : hu ≤ 100)
    (hs0 : 0 ≤ socV) (hs1 : socV ≤ 100)
    (hd0 : 0 ≤ dodV) (hd1 : dodV ≤ 100)
    (hz0 : 0 ≤ z) (hz1 : z < 99) :
    (formatPage page (get_battery_status v) v iMA tC hu socV dodV z).1.length ≤ 16 ∧
    (formatPage page (get_battery_status v) v iMA tC hu socV dodV z).2.length ≤ 16 := by
  have hfv : (formatFixed v 2).length ≤ 5 := by
    have h := formatFixed_length_pos (p := 2) (k := 1) (by norm_num) hv0
      (show v * 10^2 + 1/2 < (10:ℚ)^(1+1+2) by norm_num; linarith)
    omega
  have hfi : (formatFixed iMA 0).length ≤ 4 := by
    have h := formatFixed_length_zero (k := 3) hi0
      (show iMA + 1/2 < (10:ℚ)^(3+1) by norm_num; linarith)
    omega
  have hft : (formatFixed tC 1).length ≤ 4 := by
    have h := formatFixed_length_pos (p := 1) (k := 1) (by norm_num) ht0
      (show tC * 10^1 + 1/2 < (10:ℚ)^(1+1+1) by norm_num; linarith)
    omega
  have hfh : (formatFixed hu 0).length ≤ 3 := by
    have h := formatFixed_length_zero (k := 2) hh0
      (show hu + 1/2 < (10:ℚ)^(2+1) by norm_num; linarith)
    omega
  have hfz : (formatFixed z 1).length ≤ 4 := by
    have h := formatFixed_length_pos (p := 1) (k := 1) (by norm_num) hz0
      (show z * 10^1 + 1/2 < (10:ℚ)^(1+1+1) by norm_num; linarith)
    omega
  have hsoc3 : (intRepr (pyInt socV)).length ≤ 3 := intRepr_pyInt_length hs0 hs1
  have hdod3 : (intRepr (pyInt dodV)).length ≤ 3 := intRepr_pyInt_length hd0 hd1
  interval_cases page
  · refine ⟨battery_line_length v, ?_⟩
    show ("V:" ++ formatFixed v 2 ++ " I:" ++ formatFixed iMA 0 ++ "mA").length ≤ 16
    rw [String.length_append, String.length_append, String.length_append,
      String.length_append]
    have e1 : "V:".length = 2 := rfl
    have e2 : " I:".length = 3 := rfl
    have e3 : "mA".length = 2 := rfl
    omega
  · refine ⟨battery_line_length v, ?_⟩
    show ("T:" ++ formatFixed tC 1 ++ " H:" ++ formatFixed hu 0 ++ "%").length ≤ 16
    rw [String.length_append, String.length_append, String.length_append,
      String.length_append]
    have e1 : "T:".length = 2 := rfl
    have e2 : " H:".length = 3 := rfl
    have e3 : "%".length = 1 := rfl
    omega
  · refine ⟨?_, ?_⟩
    · show ("SVM:OFF" : String).length ≤ 16
      decide
    show ("SOC:" ++ intRepr (pyInt socV) ++ "% SOH:OFF").length ≤ 16
    rw [String.length_append, String.length_append]
    have e1 : "SOC:".length = 4 := rfl
    have e2 : "% SOH:OFF".length = 9 := rfl
    omega
  · refine ⟨?_, ?_⟩
    · show ("SVM:OFF" : String).length ≤ 16
      decide
    show ("DOD:" ++ intRepr (pyInt dodV) ++ "% Z:" ++ formatFixed z 1 ++ "R").length ≤ 16
    rw [String.length_append, String.length_append, String.length_append,
      String.length_append]
    have e1 : "DOD:".length = 4 := rfl
    have e2 : "% Z:".length = 4 := rfl
    have e3 : "R".length = 1 := rfl
    omega

/-- C7 witness: the nominal sample of the spec's end-to-end scenario (12 V,
500 mA, 25 °C, 40 % humidity, SOC 83, DOD 16, 24 Ω) keeps both page-0 lines
within 16 characters. -/
theorem c7_page_width_wit :
    (formatPage 0 (get_battery_status 12) 12 500 25 40 83 16 24).1.length ≤ 16 ∧
    (formatPage 0 (get_battery_status 12) 12 500 25 40 83 16 24).2.length ≤ 16 :=
  c7_page_width 0 12 500 25 40 83 16 24 (by norm_num) (by norm_num) (by norm_num)
    (by norm_num) (by norm_num) (by norm_num) (by norm_num) (by norm_num) (by norm_num)
    (by norm_num) (by norm_num) (by norm_num) (by norm_num) (by norm_num) (by norm_num)

/-- C7 counterexample: the realistic sample 9 V at 50 mA gives DOD = 100 and
impedance = 180 Ω, and the page-3 second line "DOD:100% Z:180.0R" is 17
characters — wider than the 16-character display column width the claim
asserts for every input. -/
theorem c7_page_width_counterexample :
    (cycleLines 3 ⟨9, 50, 25, 40, 50⟩).2 = "DOD:100% Z:180.0R" ∧
    16 < (cycleLines 3 ⟨9, 50, 25, 40, 50⟩).2.length := by
  have hsoc : soc 9 = 0 := by
    show max (0:ℚ) (min 100 ((9 - 9.0) / (12.6 - 9.0) * 100)) = 0
    rw [show ((9:ℚ) - 9.0) / (12.6 - 9.0) * 100 = 0 by norm_num,
      min_eq_right (show (0:ℚ) ≤ 100 by norm_num), max_eq_right (le_refl (0:ℚ))]
  have hdod : dod 9 = 100 := by
    rw [dod, hsoc]
    norm_num
  have himp : impedance 9 (50 / 1000) = 180 := by norm_num [impedance]
  have hpy : pyInt (100:ℚ) = 100 := by norm_num [pyInt]
  have hff : formatFixed (180:ℚ) 1 = formatScaled 1800 1 := by
    rw [formatFixed, show roundHalfEven ((180:ℚ) * 10^1) = 1800 from by norm_num [roundHalfEven]]
  have hline : (cycleLines 3 ⟨9, 50, 25, 40, 50⟩).2
      = "DOD:" ++ intRepr (pyInt (dod 9)) ++ "% Z:"
        ++ formatFixed (impedance 9 (50 / 1000)) 1 ++ "R" := rfl
  constructor
  · rw [hline, hdod, himp, hpy, hff]
    decide
  · rw [hline, hdod, himp, hpy, hff]
    decide

/-- C6 witness: nine successful cycles starting from process start show pages
0,1,2,3,0,1,2,3,0. -/
theorem c6_page_rotation_wit :
    (runMonitor ((List.replicate 9 (⟨12, 500, 25, 40, 500⟩ : SensorCycle)).map
        CycleInput.ok)).pagesShown
      = (List.range 9).map (fun k => k % 4) ∧
    ∀ q ∈ (runMonitor ((List.replicate 9 (⟨12, 500, 25, 40, 500⟩ : SensorCycle)).map
        CycleInput.ok)).pagesShown, q < 4 :=
  c6_page_rotation (List.replicate 9 ⟨12, 500, 25, 40, 500⟩)
